import Mathlib

/-!
Verification of the hospital-ai backend (Django) against its specification.
The data model and the operations under scrutiny are shallowly embedded:
Django model rows become Lean structures, querysets become list filters,
and fallible request handlers return `Except`/result structures.
Auto-increment primary keys are passed in explicitly as fresh-id arguments.
-/

namespace HospitalAI

/-! ## Core data model (accounts, hospitals, patients, surgeries) -/

/-- accounts.models.User: username, password (hash abstracted away), role. -/
structure UserAcct where
  id : Nat
  username : String
  password : String
  role : String
  deriving DecidableEq

/-- hospitals.models.Hospital (fields relevant to the claims). -/
structure Hospital where
  id : Nat
  name : String
  deriving DecidableEq

/-- surgeries.models.Surgery: `hospital`, `diet_plan`, `activity_plan` are
nullable foreign keys; `type` is a nullable FK to SurgeryType (kept as a
name option here). -/
structure Surgery where
  id : Nat
  name : String
  description : String
  typeName : Option String
  priority_level : String
  hospitalId : Option Nat
  dietPlanId : Option Nat
  activityPlanId : Option Nat
  deriving DecidableEq

/-- surgeries.models.Medication: belongs to one Surgery; dates are modelled
as day numbers. -/
structure Medication where
  id : Nat
  surgeryId : Nat
  name : String
  dosage : String
  frequency : String
  start_date : Nat
  end_date : Nat
  deriving DecidableEq

/-- patients.models.Patient: `user`, `hospital`, `surgery` are nullable FKs. -/
structure Patient where
  id : Nat
  userId : Option Nat
  hospitalId : Option Nat
  full_name : String
  age : Nat
  gender : String
  phone : String
  assigned_doctor : String
  admitted_at : Nat
  status : String
  surgeryId : Option Nat
  deriving DecidableEq

/-- patients.models.PatientCarePlan (the fields written by
`generate_and_store_ai_insights`): one row per patient. -/
structure CarePlanRow where
  patientId : Nat
  recovery_instructions : List String
  after_discharged_instructions : List String
  priority_level_assessments : List String
  predictive_analytics : List String
  recommended_actions : List String
  deriving DecidableEq

/-- patients.models.Task. -/
structure TaskRow where
  patientId : Nat
  label : String
  completed : Bool
  deriving DecidableEq

/-- The relational store the request handlers read and write. -/
structure DB where
  users : List UserAcct
  patients : List Patient
  surgeries : List Surgery
  medications : List Medication
  carePlans : List CarePlanRow
  tasks : List TaskRow
  deriving DecidableEq

def lookup_surgery (db : DB) (sid : Nat) : Option Surgery :=
  db.surgeries.find? (fun s => s.id == sid)

/-! ## String helpers: Django `icontains` / Python `in` (substring test) -/

/-- Character-list starts-with test. -/
def chStarts : List Char → List Char → Bool
  | [], _ => true
  | _ :: _, [] => false
  | a :: as, b :: bs => a == b && chStarts as bs

/-- Character-list substring test. -/
def chSub (needle : List Char) : List Char → Bool
  | [] => needle.isEmpty
  | b :: bs => chStarts needle (b :: bs) || chSub needle bs

/-- Lower-case a string character-wise (the effect of `.lower()` /
`__icontains` case folding). -/
def lowerData (s : String) : List Char :=
  s.data.map Char.toLower

/-- Django `field__icontains=q`: case-insensitive substring. -/
def icontains (hay needle : String) : Bool :=
  chSub (lowerData needle) (lowerData hay)

/-- Python `needle in hay` on strings (case-sensitive substring). -/
def strIn (needle hay : String) : Bool :=
  chSub needle.data hay.data

/-- Codepoint-lexicographic character-list comparison. -/
def chCmpLe : List Char → List Char → Bool
  | [], _ => true
  | _ :: _, [] => false
  | a :: as, b :: bs => if a == b then chCmpLe as bs else decide (a < b)

/-- Codepoint-lexicographic string order (used for the Patient model's
default `['full_name']` ordering). -/
def strLe (a b : String) : Bool :=
  chCmpLe a.data b.data

/-! ## Stable insertion sort (models Django `order_by`) -/

def insertLe (le : α → α → Bool) (a : α) : List α → List α
  | [] => [a]
  | b :: bs => if le a b then a :: b :: bs else b :: insertLe le a bs

def sortByLe (le : α → α → Bool) (l : List α) : List α :=
  l.foldr (insertLe le) []

/-! ## hospitals.views.HospitalPatientViewSet.get_queryset -/

/-- The optional query parameters of the hospital patient list. An absent
parameter is `none`; Django also treats an empty string as absent
(`if search:`), which the definitions below reproduce. `surgery_id` is
already coerced to an integer as the ORM would. -/
structure PatientFilters where
  search : Option String
  surgery_id : Option Nat
  priority_level : Option String
  doctor : Option String

/-- The `if param: queryset = queryset.filter(...)` idiom for a string
query parameter (absent or empty leaves the queryset unchanged). -/
def applyOptStringFilter (q : List α) (o : Option String) (f : String → α → Bool) : List α :=
  match o with
  | some s => if s ≠ "" then q.filter (f s) else q
  | none => q

/-- The same idiom for an integer-valued query parameter. -/
def applyOptNatFilter (q : List α) (o : Option Nat) (f : Nat → α → Bool) : List α :=
  match o with
  | some v => q.filter (f v)
  | none => q

/-- hospitals.views.HospitalPatientViewSet.get_queryset: scope to the
caller's hospital, apply the optional filters, order by `-id`. -/
def hospitalPatient_get_queryset (db : DB) (h : Hospital) (f : PatientFilters) : List Patient :=
  let q0 := db.patients.filter (fun p => p.hospitalId == some h.id)
  let q1 := applyOptStringFilter q0 f.search
    (fun s p => icontains p.full_name s || icontains p.phone s)
  let q2 := applyOptNatFilter q1 f.surgery_id (fun sid p => p.surgeryId == some sid)
  let q3 := applyOptStringFilter q2 f.priority_level
    (fun lvl p =>
      match p.surgeryId.bind (lookup_surgery db) with
      | some s => s.priority_level == lvl
      | none => false)
  let q4 := applyOptStringFilter q3 f.doctor (fun d p => icontains p.assigned_doctor d)
  sortByLe (fun a b => decide (b.id ≤ a.id)) q4

/-! ## hospitals.views.HospitalMedicationViewSet.perform_create -/

/-- The validated payload of MedicationSerializer (`surgery_id` plus the
scalar fields); the serializer's PrimaryKeyRelatedField guarantees the
surgery id exists, which the handler below re-checks via lookup. -/
structure MedicationInput where
  surgeryId : Nat
  name : String
  dosage : String
  frequency : String
  start_date : Nat
  end_date : Nat

/-- hospitals.views.HospitalMedicationViewSet.perform_create: reject a
surgery of another hospital, otherwise insert the new medication row. -/
def hospitalMedication_perform_create (db : DB) (h : Hospital) (inp : MedicationInput)
    (newId : Nat) : Except String (DB × Medication) :=
  match lookup_surgery db inp.surgeryId with
  | none => .error "Invalid pk: surgery does not exist."
  | some s =>
      if s.hospitalId = some h.id then
        let m : Medication :=
          { id := newId, surgeryId := inp.surgeryId, name := inp.name,
            dosage := inp.dosage, frequency := inp.frequency,
            start_date := inp.start_date, end_date := inp.end_date }
        .ok ({ db with medications := db.medications ++ [m] }, m)
      else
        .error "Cannot assign medication to surgery of another hospital."

/-! ## accounts.serializers: role-scoped login -/

/-- django.contrib.auth authenticate: credentials match one account. -/
def authenticate (users : List UserAcct) (username password : String) : Option UserAcct :=
  users.find? (fun u => u.username == username && u.password == password)

/-- The data CustomTokenObtainPairSerializer.validate returns: the token
pair with the custom `role` claim plus the user summary. -/
structure TokenData where
  role_claim : String
  user_id : Nat
  user_username : String
  user_role : String
  deriving DecidableEq

/-- accounts.serializers.CustomTokenObtainPairSerializer.validate: check
credentials, embed `role` into the token, return the user summary. -/
def customToken_validate (users : List UserAcct) (username password : String) :
    Except String TokenData :=
  match authenticate users username password with
  | none => .error "No active account found with the given credentials"
  | some u =>
      .ok { role_claim := u.role, user_id := u.id,
            user_username := u.username, user_role := u.role }

/-- accounts.serializers.HospitalTokenObtainPairSerializer.validate. -/
def hospitalToken_validate (users : List UserAcct) (username password : String) :
    Except String TokenData :=
  match customToken_validate users username password with
  | .error e => .error e
  | .ok d =>
      if d.user_role ≠ "hospital" then
        .error "Only hospital accounts can access this endpoint."
      else .ok d

/-- accounts.serializers.PatientTokenObtainPairSerializer.validate. -/
def patientToken_validate (users : List UserAcct) (username password : String) :
    Except String TokenData :=
  match customToken_validate users username password with
  | .error e => .error e
  | .ok d =>
      if d.user_role ≠ "patient" then
        .error "Only patient accounts can access this endpoint."
      else .ok d

/-! ## patients.ai: client acquisition and insights generation -/

/-- The shape `generate_ai_insights` extracts from a parsed model reply
(every absent key already defaulted to an empty list, as the source does). -/
structure InsightsData where
  recovery_instructions : List String
  after_discharged_instructions : List String
  priority_level_assessments : List String
  predictive_analytics : List String
  recommended_actions : List String
  tasks : List String

/-- The environment of the AI integration: the configured API key
(settings value or environment variable, collapsed into one option) and an
oracle for the outcome of a chat-completion call — `none` models a network
error or unparsable reply, `some` a successfully parsed structured reply. -/
structure AIEnv where
  apiKey : Option String
  insightsReply : Option InsightsData
  chatReply : Option String

/-- patients.ai._get_client: a client exists iff an API key is configured. -/
def get_client (env : AIEnv) : Bool :=
  env.apiKey.isSome

/-- patients.ai.generate_ai_insights: no client or no assigned surgery
short-circuits to `none`; otherwise the call/parse outcome is returned. -/
def generate_ai_insights (env : AIEnv) (p : Patient) : Option InsightsData :=
  if !get_client env then none
  else if p.surgeryId.isNone then none
  else env.insightsReply

/-- patients.models.Task get_or_create keyed by (patient, label). -/
def task_get_or_create (tasks : List TaskRow) (pid : Nat) (label : String) : List TaskRow :=
  if tasks.any (fun t => t.patientId == pid && t.label == label) then tasks
  else tasks ++ [{ patientId := pid, label := label, completed := false }]

/-- patients.models.PatientCarePlan update_or_create keyed by patient. -/
def carePlan_update_or_create (plans : List CarePlanRow) (row : CarePlanRow) : List CarePlanRow :=
  if plans.any (fun c => c.patientId == row.patientId) then
    plans.map (fun c => if c.patientId == row.patientId then row else c)
  else plans ++ [row]

/-- patients.ai.generate_and_store_ai_insights: on a successful generation,
upsert the care-plan row and idempotently create one task per label;
otherwise leave the store untouched. -/
def generate_and_store_ai_insights (env : AIEnv) (db : DB) (p : Patient) : DB :=
  match generate_ai_insights env p with
  | none => db
  | some d =>
      let row : CarePlanRow :=
        { patientId := p.id,
          recovery_instructions := d.recovery_instructions,
          after_discharged_instructions := d.after_discharged_instructions,
          priority_level_assessments := d.priority_level_assessments,
          predictive_analytics := d.predictive_analytics,
          recommended_actions := d.recommended_actions }
      let db1 := { db with carePlans := carePlan_update_or_create db.carePlans row }
      { db1 with tasks := d.tasks.foldl (fun ts label => task_get_or_create ts p.id label) db1.tasks }

/-! ## patients.serializers.PatientWriteSerializer: create and update -/

/-- The validated payload of PatientWriteSerializer on create. -/
structure PatientInput where
  full_name : String
  age : Nat
  gender : String
  phone : String
  assigned_doctor : String
  admitted_at : Nat
  status : String
  surgeryId : Option Nat

/-- patients.serializers.PatientWriteSerializer.create: bind to the calling
hospital, refuse a phone colliding with an existing username, otherwise
mint the companion user (username = password = phone, role patient), insert
the patient, and run the best-effort AI enrichment. -/
def patientWrite_create (env : AIEnv) (db : DB) (h : Hospital) (inp : PatientInput)
    (newUserId newPatientId : Nat) : Except (String × String) DB :=
  if db.users.any (fun u => u.username == inp.phone) then
    .error ("phone", "A user with this phone already exists.")
  else
    let user : UserAcct :=
      { id := newUserId, username := inp.phone, password := inp.phone, role := "patient" }
    let patient : Patient :=
      { id := newPatientId, userId := some newUserId, hospitalId := some h.id,
        full_name := inp.full_name, age := inp.age, gender := inp.gender,
        phone := inp.phone, assigned_doctor := inp.assigned_doctor,
        admitted_at := inp.admitted_at, status := inp.status, surgeryId := inp.surgeryId }
    let db1 := { db with users := db.users ++ [user], patients := db.patients ++ [patient] }
    .ok (generate_and_store_ai_insights env db1 patient)

/-- The payload of a (possibly partial) patient update; absent fields are
left unchanged by `super().update`. A present `surgeryId` value carries the
new nullable FK value. -/
structure PatientUpdateInput where
  full_name : Option String
  age : Option Nat
  gender : Option String
  phone : Option String
  assigned_doctor : Option String
  admitted_at : Option Nat
  status : Option String
  surgeryId : Option (Option Nat)

/-- Apply the scalar validated fields of an update to the patient row
(`super().update`), forcing the hospital to the caller's and the user link
to the given companion id. -/
def applyPatientFields (inst : Patient) (inp : PatientUpdateInput) (h : Hospital)
    (userId : Option Nat) : Patient :=
  { inst with
    full_name := inp.full_name.getD inst.full_name,
    age := inp.age.getD inst.age,
    gender := inp.gender.getD inst.gender,
    phone := inp.phone.getD inst.phone,
    assigned_doctor := inp.assigned_doctor.getD inst.assigned_doctor,
    admitted_at := inp.admitted_at.getD inst.admitted_at,
    status := inp.status.getD inst.status,
    surgeryId := inp.surgeryId.getD inst.surgeryId,
    hospitalId := some h.id,
    userId := userId }

/-- patients.serializers.PatientWriteSerializer.update: when the phone
actually changes, re-check uniqueness against other accounts, update (or
lazily create) the companion user's username and password, then apply the
remaining fields to the patient row. -/
def patientWrite_update (db : DB) (h : Hospital) (inst : Patient)
    (inp : PatientUpdateInput) (newUserId : Nat) : Except (String × String) DB :=
  let phoneChange : Option String :=
    match inp.phone with
    | some p => if p ≠ "" && p ≠ inst.phone then some p else none
    | none => none
  match phoneChange with
  | some p =>
      if db.users.any (fun u => u.username == p && !(inst.userId == some u.id)) then
        .error ("phone", "A user with this phone already exists.")
      else
        let step : DB × Nat :=
          match inst.userId with
          | some uid => (db, uid)
          | none =>
              ({ db with users := db.users ++
                  [{ id := newUserId, username := p, password := p, role := "patient" }] },
               newUserId)
        let db1 := step.1
        let uid := step.2
        let users2 := db1.users.map
          (fun u => if u.id == uid then { u with username := p, password := p } else u)
        let db2 := { db1 with users := users2 }
        let inst2 := applyPatientFields inst inp h (some uid)
        let patients2 := db2.patients.map (fun q => if q.id == inst.id then inst2 else q)
        .ok { db2 with patients := patients2 }
  | none =>
      let inst2 := applyPatientFields inst inp h inst.userId
      let patients2 := db.patients.map (fun q => if q.id == inst.id then inst2 else q)
      .ok { db with patients := patients2 }

/-! ## Diet plans: replace-all upsert and display serialization -/

/-- surgeries.models.DietPlan scalar fields. -/
structure DietPlanRow where
  id : Nat
  hospitalId : Option Nat
  summary : String
  diet_type : String
  goal_calories : Nat
  protein_target : String
  notes : String
  deriving DecidableEq

/-- surgeries.models.DietPlanFoodItem (auto pk not modelled: nothing reads it). -/
structure FoodItemRow where
  planId : Nat
  category : String
  name : String
  description : String
  deriving DecidableEq

/-- surgeries.models.DietPlanMeal (auto pk not modelled). -/
structure MealRow where
  planId : Nat
  meal_type : String
  description : String
  time : String
  deriving DecidableEq

/-- The diet-plan tables. -/
structure DietState where
  plans : List DietPlanRow
  foodItems : List FoodItemRow
  meals : List MealRow
  deriving DecidableEq

/-- surgeries.serializers.SimpleNameSerializer input item. -/
structure SimpleNameInput where
  name : String
  description : Option String
  deriving DecidableEq

/-- surgeries.serializers.MealPlanSerializer input item. -/
structure MealInput where
  meal_type : String
  description : String
  time : Option String
  deriving DecidableEq

/-- surgeries.serializers.DietPlanPayloadSerializer validated data
(`goal_calories` is already non-negative by `min_value=0`, hence `Nat`). -/
structure DietPlanPayload where
  summary : String
  diet_type : String
  goal_calories : Nat
  protein_target : Option String
  notes : Option String
  allowed_foods : List SimpleNameInput
  forbidden_foods : List SimpleNameInput
  meal_plan : List MealInput

/-- Python `item.get(key) or ''`: both a missing key and an empty string
collapse to the empty string. -/
def pyOrEmpty (o : Option String) : String :=
  match o with
  | none => ""
  | some s => if s == "" then "" else s

def mkFoodItem (pid : Nat) (cat : String) (it : SimpleNameInput) : FoodItemRow :=
  { planId := pid, category := cat, name := it.name, description := pyOrEmpty it.description }

def mkMeal (pid : Nat) (m : MealInput) : MealRow :=
  { planId := pid, meal_type := m.meal_type, description := m.description,
    time := m.time.getD "" }

/-- hospitals.views.HospitalDietPlanViewSet._upsert_diet_plan (the identical
logic also lives in surgeries.serializers.SurgeryWriteSerializer
._upsert_diet_plan): overwrite or create the parent row, delete every child
food item and meal of the plan, and insert exactly the submitted ones.
`existing` is the plan id to update, `none` on create (the fresh id then
stands for the auto pk the save would assign). Returns the new state and
the plan id. -/
def upsert_diet_plan (st : DietState) (hospitalId : Nat) (existing : Option Nat)
    (data : DietPlanPayload) (freshId : Nat) : DietState × Nat :=
  let pid := existing.getD freshId
  let planRow : DietPlanRow :=
    { id := pid, hospitalId := some hospitalId, summary := data.summary,
      diet_type := data.diet_type, goal_calories := data.goal_calories,
      protein_target := data.protein_target.getD "",
      notes := data.notes.getD "" }
  let plans := (st.plans.filter (fun r => !(r.id == pid))) ++ [planRow]
  let keptFood := st.foodItems.filter (fun i => !(i.planId == pid))
  let newFood := data.allowed_foods.map (mkFoodItem pid "allowed")
      ++ data.forbidden_foods.map (mkFoodItem pid "forbidden")
  let keptMeals := st.meals.filter (fun m => !(m.planId == pid))
  let newMeals := data.meal_plan.map (mkMeal pid)
  (⟨plans, keptFood ++ newFood, keptMeals ++ newMeals⟩, pid)

/-- surgeries.serializers.DietPlanDisplaySerializer: food items of one
category, projected to (name, description). -/
def display_foods (st : DietState) (pid : Nat) (cat : String) : List (String × String) :=
  (st.foodItems.filter (fun i => i.planId == pid && i.category == cat)).map
    (fun i => (i.name, i.description))

/-- surgeries.serializers.DietPlanDisplaySerializer: meals of the plan,
projected to (meal_type, description, time). -/
def display_meals (st : DietState) (pid : Nat) : List (String × String × String) :=
  (st.meals.filter (fun m => m.planId == pid)).map
    (fun m => (m.meal_type, m.description, m.time))

/-! ## patients.views.PatientMedicationsView -/

/-- The fixed due-time slots of the medication cards. -/
def medSlots : List String := ["8:00 AM", "2:00 PM", "8:00 PM"]

structure MedCard where
  medId : Nat
  name : String
  dosage : String
  frequency : String
  start_date : Nat
  end_date : Nat
  status : String
  due_time : String
  deriving DecidableEq

structure TimelineEntry where
  label : String
  has_medications : Bool
  deriving DecidableEq

structure MedsResponse where
  medications : List MedCard
  timeline : List TimelineEntry
  deriving DecidableEq

/-- Ordering key of the medications queryset: `order_by('start_date', 'id')`. -/
def medLe (a b : Medication) : Bool :=
  a.start_date < b.start_date || (a.start_date == b.start_date && a.id ≤ b.id)

/-- One loop iteration of the card synthesis: element i of the ordered
list gets slot i mod 3 and is marked taken only at i = 0. -/
def mkMedCard (im : Nat × Medication) : MedCard :=
  { medId := im.2.id, name := im.2.name, dosage := im.2.dosage,
    frequency := im.2.frequency, start_date := im.2.start_date,
    end_date := im.2.end_date,
    status := if im.1 == 0 then "taken" else "upcoming",
    due_time := medSlots.getD (im.1 % medSlots.length) "" }

/-- patients.views.PatientMedicationsView.get: 404 without a profile or an
assigned surgery; otherwise the surgery's medications active today, ordered
by start date then id, synthesized into cards and the four-slot timeline. -/
def patientMedications_get (db : DB) (patientOpt : Option Patient) (today : Nat) :
    Except (Nat × String) MedsResponse :=
  match patientOpt with
  | none => .error (404, "No patient profile found.")
  | some p =>
      match p.surgeryId with
      | none => .error (404, "No surgery assigned to patient.")
      | some sid =>
          let meds := sortByLe medLe (db.medications.filter
            (fun m => m.surgeryId == sid && m.start_date ≤ today && today ≤ m.end_date))
          let cards := meds.enum.map mkMedCard
          let flag := fun (t : String) => cards.any (fun c => c.due_time == t)
          .ok { medications := cards,
                timeline :=
                  [{ label := "8 AM", has_medications := flag "8:00 AM" },
                   { label := "12 PM", has_medications := false },
                   { label := "2 PM", has_medications := flag "2:00 PM" },
                   { label := "6 PM", has_medications := flag "8:00 PM" }] }

/-! ## patients.views.PatientActivitiesView: general guidelines -/

/-- The four fixed fallback guidelines. -/
def fallbackGuidelines : List String :=
  ["Start slowly and gradually increase activity",
   "Stop if you experience pain or discomfort",
   "Rest when needed and don\x27t push yourself",
   "Consult your doctor before starting new activities"]

/-- Python `s.split('\n')` on the character list. -/
def splitChar (sep : Char) : List Char → List (List Char)
  | [] => [[]]
  | c :: rest =>
      let r := splitChar sep rest
      if c == sep then [] :: r
      else
        match r with
        | [] => [[c]]
        | g :: gs => (c :: g) :: gs

/-- Python `line.strip()`: drop leading and trailing whitespace. -/
def trimChars (l : List Char) : List Char :=
  ((l.dropWhile Char.isWhitespace).reverse.dropWhile Char.isWhitespace).reverse

/-- The non-empty stripped lines of the notes text. -/
def noteLines (notes : String) : List String :=
  ((splitChar '\n' notes.data).map (fun l => String.mk (trimChars l))).filter
    (fun line => line ≠ "")

/-- patients.views.PatientActivitiesView.get, guideline derivation: the
non-empty stripped lines of the plan notes, else the fixed fallback. -/
def derive_guidelines (notes : String) : List String :=
  let guidelines := if notes ≠ "" then noteLines notes else []
  if guidelines = [] then fallbackGuidelines else guidelines

/-! ## patients.views: AI-backed patient endpoints (degradation paths) -/

/-- patients.views.PatientAIChatView.post (response outcome): field
validation, profile check, client check, then the provider call. -/
def patientAIChat_post (env : AIEnv) (patientOpt : Option Patient) (question : String) :
    Nat × String :=
  if question.length > 1000 then
    (400, "Ensure this field has no more than 1000 characters.")
  else
    match patientOpt with
    | none => (404, "No patient profile found.")
    | some _ =>
        if !get_client env then
          (503, "AI service is not available. Please contact your healthcare provider.")
        else
          match env.chatReply with
          | some a => (200, a)
          | none => (500, "Failed to generate AI response. Please try again later.")

/-- patients.views.ActivitySafetyCheckView.post (response outcome). -/
def activitySafetyCheck_post (env : AIEnv) (patientOpt : Option Patient) (question : String) :
    Nat × String :=
  if question.length > 500 then
    (400, "Ensure this field has no more than 500 characters.")
  else
    match patientOpt with
    | none => (404, "No patient profile found.")
    | some _ =>
        if !get_client env then
          (503, "AI service is not available. Please contact your healthcare provider.")
        else
          match env.chatReply with
          | some a => (200, a)
          | none => (500, "Failed to generate AI response. Please try again later.")

/-! ## hospitals.views.HospitalAIChatView: heuristic patient resolution -/

/-- Python regex word character (`\w`, ASCII fragment). -/
def isWordChar (c : Char) : Bool :=
  c.isAlpha || c.isDigit || c == '_'

/-- Scanner for `re.findall(r'\b[A-Z][a-z]+\b', question)`: at a position
with a word boundary before it, an uppercase letter followed by a maximal
non-empty lowercase run matches when the run ends at a word boundary;
scanning resumes after a match, or one character later after a failure
(shrinking the greedy run can never repair the trailing boundary). The
fuel argument bounds the recursion by the input length. -/
def capWordScan : Nat → Option Char → List Char → List String
  | 0, _, _ => []
  | _ + 1, _, [] => []
  | fuel + 1, prev, c :: rest =>
      let boundaryOk := match prev with
        | none => true
        | some p => !isWordChar p
      if boundaryOk && c.isUpper then
        let run := rest.takeWhile Char.isLower
        let after := rest.drop run.length
        let endOk := match after with
          | [] => true
          | d :: _ => !isWordChar d
        if !run.isEmpty && endOk then
          String.mk (c :: run) :: capWordScan fuel (some (run.getLastD c)) after
        else capWordScan fuel (some c) rest
      else capWordScan fuel (some c) rest

def find_cap_words (question : String) : List String :=
  capWordScan (question.length + 1) none question.data

/-- Scanner for `re.findall(r'\b\d{9,}\b', question)`: maximal digit runs
of length at least 9 delimited by word boundaries. -/
def digitRunScan : Nat → Option Char → List Char → List String
  | 0, _, _ => []
  | _ + 1, _, [] => []
  | fuel + 1, prev, c :: rest =>
      let boundaryOk := match prev with
        | none => true
        | some p => !isWordChar p
      if boundaryOk && c.isDigit then
        let run := rest.takeWhile Char.isDigit
        let after := rest.drop run.length
        let endOk := match after with
          | [] => true
          | d :: _ => !isWordChar d
        if 9 ≤ (c :: run).length && endOk then
          String.mk (c :: run) :: digitRunScan fuel (some (run.getLastD c)) after
        else digitRunScan fuel (some c) rest
      else digitRunScan fuel (some c) rest

def find_phone_numbers (question : String) : List String :=
  digitRunScan (question.length + 1) none question.data

def surgery_name_of (db : DB) (p : Patient) : Option String :=
  match p.surgeryId with
  | none => none
  | some sid => (lookup_surgery db sid).map (fun s => s.name)

/-- `p.surgery and p.surgery.name.lower() in question.lower()`. -/
def surgery_mentioned (db : DB) (question : String) (p : Patient) : Bool :=
  match surgery_name_of db p with
  | some n => chSub (lowerData n) (lowerData question)
  | none => false

/-- The hospital-scoped name-fragment queryset
`Patient.objects.filter(hospital=hospital, full_name__icontains=word)`;
the Patient model's default ordering is `['full_name']`. -/
def name_candidates (db : DB) (h : Hospital) (w : String) : List Patient :=
  sortByLe (fun a b => strLe a.full_name b.full_name)
    (db.patients.filter (fun p => p.hospitalId == some h.id && icontains p.full_name w))

/-- `Patient.objects.filter(hospital=hospital, phone__icontains=...)` and
`.first()` under the default name ordering. -/
def phone_match (db : DB) (h : Hospital) (ph : String) : Option Patient :=
  (sortByLe (fun a b => strLe a.full_name b.full_name)
    (db.patients.filter (fun p => p.hospitalId == some h.id && icontains p.phone ph))).head?

structure PatientCandidate where
  id : Nat
  name : String
  phone : String
  surgery : Option String
  deriving DecidableEq

def toCandidate (db : DB) (p : Patient) : PatientCandidate :=
  { id := p.id, name := p.full_name, phone := p.phone, surgery := surgery_name_of db p }

def candidate_line (db : DB) (p : Patient) : String :=
  let surgeryInfo := match surgery_name_of db p with
    | some n => " (" ++ n ++ ")"
    | none => ""
  "- " ++ p.full_name ++ " (Telefon: " ++ p.phone ++ surgeryInfo ++ ")"

def clarification_text (word : String) (lines : List String) : String :=
  "Bir nechta bemor topildi \x27" ++ word ++ "\x27 ismi bilan. " ++
    "Iltimos, quyidagilardan birini tanlang:\n" ++ String.intercalate "\n" lines ++
    "\n\nYoki telefon raqam yoki operatsiya nomini ko\x27rsating."

inductive NameResolution where
  | found (p : Patient)
  | needClar (answer : String) (candidates : List PatientCandidate)
  | noMatch
  deriving DecidableEq

/-- The word loop of HospitalAIChatView.post: first word with exactly one
hospital-scoped name match resolves; more than one match tries the
surgery-name filter, resolving on a unique survivor and otherwise
returning the clarification data built from the first five candidates;
a word with no match moves on to the next word. -/
def name_word_loop (db : DB) (h : Hospital) (question : String) :
    List String → NameResolution
  | [] => .noMatch
  | w :: ws =>
      let cands := name_candidates db h w
      if cands.length == 1 then
        match cands.head? with
        | some p => .found p
        | none => .noMatch
      else if 1 < cands.length then
        let surgeryMatched := cands.filter (surgery_mentioned db question)
        if surgeryMatched.length == 1 then
          match surgeryMatched.head? with
          | some p => .found p
          | none => .noMatch
        else
          .needClar (clarification_text w ((cands.take 5).map (candidate_line db)))
            ((cands.take 5).map (toCandidate db))
      else name_word_loop db h question ws

/-- The phone step of the heuristic: the first extracted digit run, if
any, is matched against the hospital's patients (`icontains` on phone,
`.first()` under default ordering). -/
def resolve_by_phone (db : DB) (h : Hospital) (question : String) : Option Patient :=
  match (find_phone_numbers question).head? with
  | none => none
  | some ph => phone_match db h ph

/-- The observable outcome of one staff-chat request. -/
structure StaffChatResponse where
  status : Nat
  detail : String
  requires_clarification : Bool
  potential_patients : List PatientCandidate
  aiCalled : Bool
  deriving DecidableEq

/-- The provider-call tail of HospitalAIChatView.post: the model is invoked
(so `aiCalled` is true on both branches); failure maps to a 500. -/
def staffChat_aiAnswer (env : AIEnv) : StaffChatResponse :=
  match env.chatReply with
  | some a =>
      { status := 200, detail := a, requires_clarification := false,
        potential_patients := [], aiCalled := true }
  | none =>
      { status := 500, detail := "Failed to generate AI response. Please try again later.",
        requires_clarification := false, potential_patients := [], aiCalled := true }

/-- hospitals.views.HospitalAIChatView.post: validation, hospital profile
check, client check, explicit patient id or heuristic resolution from the
question text, then the provider call — except that remaining ambiguity
returns the clarification payload without calling the provider. -/
def hospitalAIChat_post (env : AIEnv) (db : DB) (hospitalOpt : Option Hospital)
    (question : String) (patient_id : Option Nat) : StaffChatResponse :=
  if question.length > 1000 then
    { status := 400, detail := "Ensure this field has no more than 1000 characters.",
      requires_clarification := false, potential_patients := [], aiCalled := false }
  else
    match hospitalOpt with
    | none =>
        { status := 404, detail := "No hospital profile is linked to this account.",
          requires_clarification := false, potential_patients := [], aiCalled := false }
    | some h =>
        if !get_client env then
          { status := 503, detail := "AI service is not available. Please try again later.",
            requires_clarification := false, potential_patients := [], aiCalled := false }
        else
          match patient_id with
          | some pid =>
              match db.patients.find? (fun p => p.id == pid && p.hospitalId == some h.id) with
              | none =>
                  { status := 404, detail := "Patient not found for this hospital.",
                    requires_clarification := false, potential_patients := [],
                    aiCalled := false }
              | some _ => staffChat_aiAnswer env
          | none =>
              match resolve_by_phone db h question with
              | some _ => staffChat_aiAnswer env
              | none =>
                  match name_word_loop db h question (find_cap_words question) with
                  | .found _ => staffChat_aiAnswer env
                  | .needClar ans cands =>
                      { status := 200, detail := ans, requires_clarification := true,
                        potential_patients := cands, aiCalled := false }
                  | .noMatch => staffChat_aiAnswer env

/-! ## hospitals.management.commands.seed_mock_data -/

/-- The choice-class names the Surgery model actually defines. -/
def surgeryChoiceClasses : List String := ["PriorityLevels"]

/-- The field names the Patient model actually defines. -/
def patientFieldNames : List String :=
  ["user", "hospital", "full_name", "age", "gender", "phone",
   "assigned_doctor", "admitted_at", "status", "surgery"]

/-- The status values Patient.StatusChoices actually defines. -/
def patientStatusValues : List String := ["in_recovery", "discharged"]

/-- The field names the Medication model actually defines. -/
def medicationFieldNames : List String :=
  ["surgery", "name", "dosage", "frequency", "start_date", "end_date"]

/-- The Patient keyword keys the seeding command passes when creating its
demo patients (it includes `ward`, and a `stable` status). -/
def seedPatientDataKeys : List String :=
  ["full_name", "age", "gender", "phone", "assigned_doctor",
   "admitted_at", "ward", "status", "surgery"]

/-- The Medication keyword keys the seeding command passes to get_or_create
(it includes `patient`). -/
def seedMedicationKwargs : List String :=
  ["surgery", "patient", "name", "dosage", "frequency", "start_date", "end_date"]

/-- Python attribute lookup on a class: succeeds only for a defined name. -/
def python_getattr (cls : String) (defined : List String) (attr : String) :
    Except String String :=
  if attr ∈ defined then .ok attr
  else .error ("AttributeError: type object \x27" ++ cls ++
    "\x27 has no attribute \x27" ++ attr ++ "\x27")

/-- hospitals.management.commands.seed_mock_data.Command.handle, embedded up
to its first failing step. The early steps — get-or-create of the hospital
login user and the hospital row, unconditional creation of the diet and
activity plans and their items — always succeed; evaluating the defaults of
the first Surgery.objects.get_or_create then resolves
`Surgery.RiskLevels.HIGH`, an attribute the Surgery model does not define
(it defines `PriorityLevels`), so the command aborts before any surgery,
patient, medical-record or medication step runs. `freshUserId` stands for
the auto pk a newly created hospital user would get. -/
def seed_mock_data_handle (db : DB) (freshUserId : Nat) : Except String DB := do
  let hospitalUser : UserAcct :=
    { id := freshUserId, username := "hospital", password := "Sunocun20", role := "hospital" }
  let users1 :=
    if db.users.any (fun u => u.username == "hospital") then db.users
    else db.users ++ [hospitalUser]
  let db1 := { db with users := users1 }
  let _ ← python_getattr "Surgery" surgeryChoiceClasses "RiskLevels"
  .ok db1

/-! ## Concrete fixtures used by the witness instantiations -/

def dbEmpty : DB :=
  { users := [], patients := [], surgeries := [], medications := [],
    carePlans := [], tasks := [] }

def hospA : Hospital := { id := 1, name := "Alpha Clinic" }

def hospB : Hospital := { id := 2, name := "Beta Clinic" }

def surgA : Surgery :=
  { id := 11, name := "Appendectomy", description := "", typeName := none,
    priority_level := "medium", hospitalId := some 1, dietPlanId := none,
    activityPlanId := none }

def surgB : Surgery :=
  { id := 21, name := "Knee Replacement", description := "", typeName := none,
    priority_level := "high", hospitalId := some 2, dietPlanId := none,
    activityPlanId := none }

def demoPatientA : Patient :=
  { id := 101, userId := some 501, hospitalId := some 1, full_name := "Ali Karimov",
    age := 40, gender := "male", phone := "555000111", assigned_doctor := "Dr. Aziz",
    admitted_at := 0, status := "in_recovery", surgeryId := none }

def demoPatientB : Patient :=
  { id := 102, userId := some 502, hospitalId := some 1, full_name := "Ali Valiyev",
    age := 52, gender := "male", phone := "555000222", assigned_doctor := "Dr. Aziz",
    admitted_at := 0, status := "in_recovery", surgeryId := none }

def demoUserA : UserAcct :=
  { id := 501, username := "555000111", password := "555000111", role := "patient" }

def demoDB : DB :=
  { users := [demoUserA], patients := [demoPatientA, demoPatientB],
    surgeries := [surgA, surgB], medications := [], carePlans := [], tasks := [] }

def demoFilters : PatientFilters :=
  { search := none, surgery_id := none, priority_level := none, doctor := none }

def medInputCross : MedicationInput :=
  { surgeryId := 21, name := "Cefazolin", dosage := "1 g", frequency := "q8h",
    start_date := 5, end_date := 9 }

def demoLoginUsers : List UserAcct :=
  [{ id := 1, username := "hosp", password := "pw1", role := "hospital" },
   { id := 2, username := "pat", password := "pw2", role := "patient" }]

def envNoKey : AIEnv :=
  { apiKey := none, insightsReply := none, chatReply := none }

def demoInsights : InsightsData :=
  { recovery_instructions := ["rest"], after_discharged_instructions := ["walk"],
    priority_level_assessments := ["watch"], predictive_analytics := ["ok"],
    recommended_actions := ["hydrate"], tasks := ["drink water"] }

def envWithKey : AIEnv :=
  { apiKey := some "key", insightsReply := some demoInsights, chatReply := some "answer" }

def samplePatientInput : PatientInput :=
  { full_name := "Nodira Azimova", age := 33, gender := "female", phone := "555000333",
    assigned_doctor := "Dr. Aziz", admitted_at := 3, status := "in_recovery",
    surgeryId := none }

def sampleUpdateInput : PatientUpdateInput :=
  { full_name := none, age := none, gender := none, phone := some "555000999",
    assigned_doctor := none, admitted_at := none, status := none, surgeryId := none }

def patientWithSurgery : Patient :=
  { id := 103, userId := some 503, hospitalId := some 1, full_name := "Olim Usmonov",
    age := 61, gender := "male", phone := "555000444", assigned_doctor := "Dr. Aziz",
    admitted_at := 0, status := "in_recovery", surgeryId := some 11 }

def medsDB : DB :=
  { users := [], patients := [patientWithSurgery], surgeries := [surgA, surgB],
    medications :=
      [{ id := 1, surgeryId := 11, name := "M1", dosage := "d", frequency := "f",
         start_date := 2, end_date := 9 },
       { id := 2, surgeryId := 11, name := "M2", dosage := "d", frequency := "f",
         start_date := 1, end_date := 8 },
       { id := 3, surgeryId := 11, name := "M3", dosage := "d", frequency := "f",
         start_date := 1, end_date := 9 },
       { id := 4, surgeryId := 11, name := "M4", dosage := "d", frequency := "f",
         start_date := 9, end_date := 9 },
       { id := 5, surgeryId := 21, name := "Other", dosage := "d", frequency := "f",
         start_date := 1, end_date := 9 },
       { id := 6, surgeryId := 11, name := "Old", dosage := "d", frequency := "f",
         start_date := 1, end_date := 3 }],
    carePlans := [], tasks := [] }

/-! # Theorems -/

/-! ## Library lemmas about the insertion sort -/

theorem insertLe_perm (le : α → α → Bool) (a : α) (l : List α) :
    List.Perm (insertLe le a l) (a :: l) := by
  induction l with
  | nil => simp [insertLe]
  | cons b bs ih =>
    by_cases h : le a b
    · simp [insertLe, h]
    · simp only [insertLe, h, if_neg, Bool.not_eq_true]
      exact ((ih.cons b)).trans (List.Perm.swap a b bs)

theorem sortByLe_perm (le : α → α → Bool) (l : List α) :
    List.Perm (sortByLe le l) l := by
  induction l with
  | nil => exact List.Perm.refl _
  | cons a as ih => exact (insertLe_perm le a (sortByLe le as)).trans (ih.cons a)

theorem mem_sortByLe {le : α → α → Bool} {l : List α} {a : α} :
    a ∈ sortByLe le l ↔ a ∈ l :=
  (sortByLe_perm le l).mem_iff

theorem insertLe_pairwise {le : α → α → Bool}
    (htot : ∀ x y, le x y = true ∨ le y x = true)
    (htrans : ∀ x y z, le x y = true → le y z = true → le x z = true)
    (a : α) {l : List α} (hl : l.Pairwise (fun x y => le x y = true)) :
    (insertLe le a l).Pairwise (fun x y => le x y = true) := by
  induction l with
  | nil => simp [insertLe]
  | cons b bs ih =>
    rcases List.pairwise_cons.mp hl with ⟨hb, hbs⟩
    by_cases h : le a b
    · simp only [insertLe, h, if_true]
      refine List.pairwise_cons.mpr ⟨?_, hl⟩
      intro y hy
      rcases List.mem_cons.mp hy with hy | hy
      · exact hy ▸ h
      · exact htrans a b y h (hb y hy)
    · have hba : le b a = true := (htot a b).resolve_left h
      simp only [insertLe, h, if_neg, Bool.not_eq_true]
      refine List.pairwise_cons.mpr ⟨?_, ih hbs⟩
      intro y hy
      rcases List.mem_cons.mp ((insertLe_perm le a bs).mem_iff.mp hy) with hy2 | hy2
      · exact hy2 ▸ hba
      · exact hb y hy2

theorem sortByLe_pairwise {le : α → α → Bool}
    (htot : ∀ x y, le x y = true ∨ le y x = true)
    (htrans : ∀ x y z, le x y = true → le y z = true → le x z = true)
    (l : List α) :
    (sortByLe le l).Pairwise (fun x y => le x y = true) := by
  induction l with
  | nil => simp [sortByLe]
  | cons a as ih => exact insertLe_pairwise htot htrans a ih

/-! ## Claim theorems -/

/-- Claim C8: the patient activities view returns general_guidelines equal
to the non-empty stripped lines of the activity plan notes in order when
any such line exists, and otherwise exactly the four fixed fallback
strings, in that order. -/
theorem C8_activity_guidelines (notes : String) :
    (noteLines notes ≠ [] → derive_guidelines notes = noteLines notes) ∧
    (noteLines notes = [] →
      derive_guidelines notes =
        ["Start slowly and gradually increase activity",
         "Stop if you experience pain or discomfort",
         "Rest when needed and don\x27t push yourself",
         "Consult your doctor before starting new activities"]) := by
  constructor
  · intro hne
    by_cases h0 : notes = ""
    · exfalso
      apply hne
      rw [h0]
      decide
    · simp [derive_guidelines, h0, hne]
  · intro he
    by_cases h0 : notes = ""
    · simp [derive_guidelines, h0, fallbackGuidelines]
    · simp [derive_guidelines, h0, he, fallbackGuidelines]

/-- Claim C8 witness: a two-line notes text yields its stripped lines; an
empty notes text yields the fixed fallback list. -/
theorem C8_activity_guidelines_witness :
    derive_guidelines "Walk daily\n  Rest often  " = ["Walk daily", "Rest often"] ∧
    derive_guidelines "" =
      ["Start slowly and gradually increase activity",
       "Stop if you experience pain or discomfort",
       "Rest when needed and don\x27t push yourself",
       "Consult your doctor before starting new activities"] := by
  constructor
  · have h := (C8_activity_guidelines "Walk daily\n  Rest often  ").1 (by decide)
    rw [h]
    decide
  · exact (C8_activity_guidelines "").2 (by decide)

/-- Claim C9 (code bug in the seeder): the seeding command can never
complete, on any database state: building the defaults of the first
surgery evaluates `Surgery.RiskLevels.HIGH`, but the Surgery model defines
`PriorityLevels`, so every run dies with AttributeError before the
surgery/patient/record/medication steps; the command also references a
`ward` patient field, a `stable` status and a `patient` medication field
that the current models do not define. -/
theorem C9_seed_command_crashes :
    (∀ (db : DB) (freshUserId : Nat),
      seed_mock_data_handle db freshUserId =
        .error "AttributeError: type object \x27Surgery\x27 has no attribute \x27RiskLevels\x27") ∧
    "ward" ∈ seedPatientDataKeys ∧ "ward" ∉ patientFieldNames ∧
    "stable" ∉ patientStatusValues ∧
    "patient" ∈ seedMedicationKwargs ∧ "patient" ∉ medicationFieldNames := by
  refine ⟨fun db n => rfl, by decide, by decide, by decide, by decide, by decide⟩

/-- Claim C10: for a patient with no assigned surgery, the insights
generation flow leaves the store untouched — no care-plan row and no task
is created or updated — even when the provider is configured. -/
theorem C10_no_surgery_skips_insights (env : AIEnv) (db : DB) (p : Patient)
    (h : p.surgeryId = none) :
    generate_and_store_ai_insights env db p = db := by
  unfold generate_and_store_ai_insights generate_ai_insights
  cases hc : get_client env <;> simp [h, hc]

/-- Claim C10 witness: a configured, reachable provider still generates
nothing for the surgery-less demo patient. -/
theorem C10_no_surgery_skips_insights_witness :
    generate_and_store_ai_insights envWithKey demoDB demoPatientA = demoDB :=
  C10_no_surgery_skips_insights envWithKey demoDB demoPatientA rfl

/-- Claim C2: with valid credentials, the hospital login succeeds iff the
account role is hospital and otherwise fails with its fixed message; the
patient login succeeds iff the role is patient, with its own message; the
generic login accepts any role and embeds the role as a token claim. -/
theorem C2_role_scoped_login (users : List UserAcct) (uname pw : String) (u : UserAcct)
    (hauth : authenticate users uname pw = some u) :
    ((∃ d, hospitalToken_validate users uname pw = .ok d) ↔ u.role = "hospital") ∧
    (u.role ≠ "hospital" →
      hospitalToken_validate users uname pw =
        .error "Only hospital accounts can access this endpoint.") ∧
    ((∃ d, patientToken_validate users uname pw = .ok d) ↔ u.role = "patient") ∧
    (u.role ≠ "patient" →
      patientToken_validate users uname pw =
        .error "Only patient accounts can access this endpoint.") ∧
    (∃ d, customToken_validate users uname pw = .ok d ∧ d.role_claim = u.role) := by
  have hcustom : customToken_validate users uname pw =
      .ok { role_claim := u.role, user_id := u.id,
            user_username := u.username, user_role := u.role } := by
    unfold customToken_validate
    rw [hauth]
  refine ⟨?_, ?_, ?_, ?_, ?_⟩
  · constructor
    · rintro ⟨d, hd⟩
      by_contra hrole
      simp [hospitalToken_validate, hcustom, hrole] at hd
    · intro hrole
      refine ⟨{ role_claim := u.role, user_id := u.id,
                user_username := u.username, user_role := u.role }, ?_⟩
      simp [hospitalToken_validate, hcustom, hrole]
  · intro hrole
    simp [hospitalToken_validate, hcustom, hrole]
  · constructor
    · rintro ⟨d, hd⟩
      by_contra hrole
      simp [patientToken_validate, hcustom, hrole] at hd
    · intro hrole
      refine ⟨{ role_claim := u.role, user_id := u.id,
                user_username := u.username, user_role := u.role }, ?_⟩
      simp [patientToken_validate, hcustom, hrole]
  · intro hrole
    simp [patientToken_validate, hcustom, hrole]
  · exact ⟨_, hcustom, rfl⟩

/-- Claim C2 witness: the demo hospital account passes the hospital login
and is rejected by the patient login; the demo patient account is rejected
by the hospital login; the generic login embeds the role claim. -/
theorem C2_role_scoped_login_witness :
    ((∃ d, hospitalToken_validate demoLoginUsers "hosp" "pw1" = .ok d) ↔
      ("hospital" : String) = "hospital") ∧
    patientToken_validate demoLoginUsers "hosp" "pw1" =
      .error "Only patient accounts can access this endpoint." ∧
    hospitalToken_validate demoLoginUsers "pat" "pw2" =
      .error "Only hospital accounts can access this endpoint." ∧
    (∃ d, customToken_validate demoLoginUsers "pat" "pw2" = .ok d ∧
      d.role_claim = "patient") := by
  have h1 := C2_role_scoped_login demoLoginUsers "hosp" "pw1"
    { id := 1, username := "hosp", password := "pw1", role := "hospital" } (by rfl)
  have h2 := C2_role_scoped_login demoLoginUsers "pat" "pw2"
    { id := 2, username := "pat", password := "pw2", role := "patient" } (by rfl)
  exact ⟨h1.1, h1.2.2.2.1 (by decide), h2.2.1 (by decide), h2.2.2.2.2⟩

theorem mem_of_applyOptStringFilter {α} {q : List α} {o : Option String}
    {f : String → α → Bool} {p : α}
    (hp : p ∈ applyOptStringFilter q o f) : p ∈ q := by
  unfold applyOptStringFilter at hp
  split at hp
  · split at hp
    · exact (List.mem_filter.mp hp).1
    · exact hp
  · exact hp

theorem mem_of_applyOptNatFilter {α} {q : List α} {o : Option Nat}
    {f : Nat → α → Bool} {p : α}
    (hp : p ∈ applyOptNatFilter q o f) : p ∈ q := by
  unfold applyOptNatFilter at hp
  split at hp
  · exact (List.mem_filter.mp hp).1
  · exact hp

/-- Claim C1: under every filter combination, the hospital patient list
contains only patients of the caller's hospital; creating a medication
whose surgery belongs to a different hospital always fails with the fixed
validation message (the store is returned only on success, so no
medication row is created); and a successful creation implies the surgery
belongs to the caller. -/
theorem C1_hospital_tenancy :
    (∀ (db : DB) (h : Hospital) (f : PatientFilters) (p : Patient),
      p ∈ hospitalPatient_get_queryset db h f → p.hospitalId = some h.id) ∧
    (∀ (db : DB) (h : Hospital) (inp : MedicationInput) (newId : Nat) (s : Surgery),
      lookup_surgery db inp.surgeryId = some s → s.hospitalId ≠ some h.id →
      hospitalMedication_perform_create db h inp newId =
        .error "Cannot assign medication to surgery of another hospital.") ∧
    (∀ (db : DB) (h : Hospital) (inp : MedicationInput) (newId : Nat)
        (db2 : DB) (m : Medication),
      hospitalMedication_perform_create db h inp newId = .ok (db2, m) →
      ∃ s, lookup_surgery db inp.surgeryId = some s ∧ s.hospitalId = some h.id) := by
  refine ⟨?_, ?_, ?_⟩
  · intro db h f p hp
    simp only [hospitalPatient_get_queryset] at hp
    rw [mem_sortByLe] at hp
    have h3 := mem_of_applyOptStringFilter hp
    have h2 := mem_of_applyOptStringFilter h3
    have h1 := mem_of_applyOptNatFilter h2
    have h0 := mem_of_applyOptStringFilter h1
    have := (List.mem_filter.mp h0).2
    simpa using this
  · intro db h inp newId s hs hne
    unfold hospitalMedication_perform_create
    rw [hs]
    simp [hne]
  · intro db h inp newId db2 m hok
    unfold hospitalMedication_perform_create at hok
    cases hl : lookup_surgery db inp.surgeryId with
    | none => rw [hl] at hok; cases hok
    | some s =>
        rw [hl] at hok
        by_cases hh : s.hospitalId = some h.id
        · exact ⟨s, rfl, hh⟩
        · simp [hh] at hok

/-- Claim C1 witness: a concrete hospital-A patient is in hospital A's
list, and attaching a medication to hospital B's surgery as hospital A
fails with the fixed message. -/
theorem C1_hospital_tenancy_witness :
    demoPatientA.hospitalId = some hospA.id ∧
    hospitalMedication_perform_create demoDB hospA medInputCross 99 =
      .error "Cannot assign medication to surgery of another hospital." :=
  ⟨C1_hospital_tenancy.1 demoDB hospA demoFilters demoPatientA (by decide),
   C1_hospital_tenancy.2.1 demoDB hospA medInputCross 99 surgB (by rfl) (by decide)⟩

theorem gasi_users (env : AIEnv) (db : DB) (p : Patient) :
    (generate_and_store_ai_insights env db p).users = db.users := by
  unfold generate_and_store_ai_insights
  cases generate_ai_insights env p <;> simp

theorem gasi_patients (env : AIEnv) (db : DB) (p : Patient) :
    (generate_and_store_ai_insights env db p).patients = db.patients := by
  unfold generate_and_store_ai_insights
  cases generate_ai_insights env p <;> simp

theorem gasi_no_client (env : AIEnv) (db : DB) (p : Patient) (h : env.apiKey = none) :
    generate_and_store_ai_insights env db p = db := by
  unfold generate_and_store_ai_insights generate_ai_insights get_client
  simp [h]

/-- Claim C3: creating a patient with phone P mints a companion user with
username P, password P and role patient, linked from the patient row; a
colliding phone fails with the field-level error before anything is
written; updating a patient's phone to a value used by another account
fails the same way, while a non-colliding change rewrites (or lazily
creates) the companion user's username and password. -/
theorem C3_companion_user_lifecycle :
    (∀ (env : AIEnv) (db : DB) (h : Hospital) (inp : PatientInput) (nU nP : Nat),
      db.users.any (fun u => u.username == inp.phone) = true →
      patientWrite_create env db h inp nU nP =
        .error ("phone", "A user with this phone already exists.")) ∧
    (∀ (env : AIEnv) (db : DB) (h : Hospital) (inp : PatientInput) (nU nP : Nat),
      db.users.any (fun u => u.username == inp.phone) = false →
      ∃ db2, patientWrite_create env db h inp nU nP = .ok db2 ∧
        ∃ u, u ∈ db2.users ∧ u.username = inp.phone ∧ u.password = inp.phone ∧
          u.role = "patient" ∧
          ∃ q, q ∈ db2.patients ∧ q.phone = inp.phone ∧ q.userId = some u.id) ∧
    (∀ (db : DB) (h : Hospital) (inst : Patient) (inp : PatientUpdateInput)
        (nU : Nat) (p : String),
      inp.phone = some p → p ≠ "" → p ≠ inst.phone →
      db.users.any (fun u => u.username == p && !(inst.userId == some u.id)) = true →
      patientWrite_update db h inst inp nU =
        .error ("phone", "A user with this phone already exists.")) ∧
    (∀ (db : DB) (h : Hospital) (inst : Patient) (inp : PatientUpdateInput)
        (nU : Nat) (p : String),
      inp.phone = some p → p ≠ "" → p ≠ inst.phone →
      db.users.any (fun u => u.username == p && !(inst.userId == some u.id)) = false →
      (∀ uid0, inst.userId = some uid0 → ∃ u0, u0 ∈ db.users ∧ u0.id = uid0) →
      ∃ db2, patientWrite_update db h inst inp nU = .ok db2 ∧
        ∃ uid u, u ∈ db2.users ∧ u.id = uid ∧ u.username = p ∧ u.password = p ∧
          (∀ q, q ∈ db2.patients → q.id = inst.id → q.phone = p ∧ q.userId = some uid)) := by
  refine ⟨?_, ?_, ?_, ?_⟩
  · intro env db h inp nU nP hany
    unfold patientWrite_create
    simp [hany]
  · intro env db h inp nU nP hany
    unfold patientWrite_create
    rw [if_neg (by simp [hany])]
    refine ⟨_, rfl, ?_⟩
    refine ⟨{ id := nU, username := inp.phone, password := inp.phone, role := "patient" }, ?_,
      rfl, rfl, rfl, ?_⟩
    · rw [gasi_users]
      simp
    · refine ⟨{ id := nP, userId := some nU, hospitalId := some h.id,
                full_name := inp.full_name, age := inp.age, gender := inp.gender,
                phone := inp.phone, assigned_doctor := inp.assigned_doctor,
                admitted_at := inp.admitted_at, status := inp.status,
                surgeryId := inp.surgeryId }, ?_, rfl, rfl⟩
      rw [gasi_patients]
      simp
  · intro db h inst inp nU p hp hne1 hne2 hany
    unfold patientWrite_update
    rw [hp]
    simp [hne1, hne2, hany]
  · intro db h inst inp nU p hp hne1 hne2 hany href
    have hcond : (decide (p ≠ "") && decide (p ≠ inst.phone)) = true := by
      simp [hne1, hne2]
    cases hui : inst.userId with
    | none =>
        refine ⟨{ db with
                  users := ((db.users ++
                      [({ id := nU, username := p, password := p,
                          role := "patient" } : UserAcct)]).map
                    (fun (u : UserAcct) =>
                      if u.id == nU then { u with username := p, password := p } else u)),
                  patients := db.patients.map
                    (fun (q : Patient) => if q.id == inst.id then
                      applyPatientFields inst inp h (some nU) else q) },
          ?_, nU, { id := nU, username := p, password := p, role := "patient" },
          ?_, rfl, rfl, rfl, ?_⟩
        · have hany2 := hany
          rw [hui] at hany2
          simp at hany2
          unfold patientWrite_update
          rw [hp]
          simp [hui, hne1, hne2, hany2]
          exact hany2
        · refine List.mem_map.mpr ?_
          refine ⟨{ id := nU, username := p, password := p, role := "patient" }, ?_, ?_⟩
          · simp
          · simp
        · intro q hq hqid
          rcases List.mem_map.mp hq with ⟨q0, hq0mem, hq0⟩
          by_cases hid : (q0.id == inst.id) = true
          · rw [if_pos hid] at hq0
            rw [← hq0]
            simp [applyPatientFields, hp]
          · rw [if_neg hid] at hq0
            rw [← hq0] at hqid
            exact absurd hqid (by simpa using hid)
    | some uid0 =>
        obtain ⟨u0, hu0mem, hu0id⟩ := href uid0 hui
        refine ⟨{ db with
                  users := db.users.map
                    (fun (u : UserAcct) => if u.id == uid0 then
                      { u with username := p, password := p } else u),
                  patients := db.patients.map
                    (fun (q : Patient) => if q.id == inst.id then
                      applyPatientFields inst inp h (some uid0) else q) },
          ?_, uid0, { u0 with username := p, password := p }, ?_, hu0id, rfl, rfl, ?_⟩
        · have hany2 := hany
          rw [hui] at hany2
          simp at hany2
          unfold patientWrite_update
          rw [hp]
          simp [hui, hne1, hne2, hany2]
          exact hany2
        · refine List.mem_map.mpr ⟨u0, hu0mem, ?_⟩
          rw [if_pos (by simp [hu0id])]
        · intro q hq hqid
          rcases List.mem_map.mp hq with ⟨q0, hq0mem, hq0⟩
          by_cases hid : (q0.id == inst.id) = true
          · rw [if_pos hid] at hq0
            rw [← hq0]
            simp [applyPatientFields, hp]
          · rw [if_neg hid] at hq0
            rw [← hq0] at hqid
            exact absurd hqid (by simpa using hid)

/-- Claim C3 witness: creating a patient over the demo store provisions the
companion account; re-creating with the already-used phone fails. -/
theorem C3_companion_user_lifecycle_witness :
    (∃ db2, patientWrite_create envNoKey demoDB hospA samplePatientInput 900 901 = .ok db2 ∧
      ∃ u, u ∈ db2.users ∧ u.username = samplePatientInput.phone ∧
        u.password = samplePatientInput.phone ∧ u.role = "patient" ∧
        ∃ q, q ∈ db2.patients ∧ q.phone = samplePatientInput.phone ∧
          q.userId = some u.id) ∧
    patientWrite_create envNoKey demoDB hospA
        { samplePatientInput with phone := "555000111" } 900 901 =
      .error ("phone", "A user with this phone already exists.") :=
  ⟨C3_companion_user_lifecycle.2.1 envNoKey demoDB hospA samplePatientInput 900 901 (by decide),
   C3_companion_user_lifecycle.1 envNoKey demoDB hospA
     { samplePatientInput with phone := "555000111" } 900 901 (by decide)⟩

/-- Claim C6: with no API key configured, the patient chat, the activity
safety check and the staff chat all return 503 with their fixed messages
instead of raising, and creating a patient still succeeds — the patient
row and its companion user exist — while no care plan or task is
generated. -/
theorem C6_graceful_degradation (env : AIEnv) (hno : env.apiKey = none) :
    (∀ (p : Patient) (q : String), q.length ≤ 1000 →
      patientAIChat_post env (some p) q =
        (503, "AI service is not available. Please contact your healthcare provider.")) ∧
    (∀ (p : Patient) (q : String), q.length ≤ 500 →
      activitySafetyCheck_post env (some p) q =
        (503, "AI service is not available. Please contact your healthcare provider.")) ∧
    (∀ (db : DB) (h : Hospital) (q : String) (pid : Option Nat), q.length ≤ 1000 →
      hospitalAIChat_post env db (some h) q pid =
        { status := 503, detail := "AI service is not available. Please try again later.",
          requires_clarification := false, potential_patients := [], aiCalled := false }) ∧
    (∀ (db : DB) (h : Hospital) (inp : PatientInput) (nU nP : Nat),
      db.users.any (fun u => u.username == inp.phone) = false →
      ∃ db2, patientWrite_create env db h inp nU nP = .ok db2 ∧
        (∃ u, u ∈ db2.users ∧ u.username = inp.phone ∧ u.password = inp.phone) ∧
        (∃ q, q ∈ db2.patients ∧ q.phone = inp.phone) ∧
        db2.carePlans = db.carePlans ∧ db2.tasks = db.tasks) := by
  have hclient : get_client env = false := by simp [get_client, hno]
  refine ⟨?_, ?_, ?_, ?_⟩
  · intro p q hq
    unfold patientAIChat_post
    rw [if_neg (by omega)]
    simp [hclient]
  · intro p q hq
    unfold activitySafetyCheck_post
    rw [if_neg (by omega)]
    simp [hclient]
  · intro db h q pid hq
    unfold hospitalAIChat_post
    rw [if_neg (by omega)]
    simp [hclient]
  · intro db h inp nU nP hany
    unfold patientWrite_create
    rw [if_neg (by simp [hany])]
    dsimp only
    rw [gasi_no_client _ _ _ hno]
    refine ⟨_, rfl, ?_, ?_, by simp, by simp⟩
    · exact ⟨{ id := nU, username := inp.phone, password := inp.phone, role := "patient" },
        by simp, rfl, rfl⟩
    · refine ⟨{ id := nP, userId := some nU, hospitalId := some h.id,
                full_name := inp.full_name, age := inp.age, gender := inp.gender,
                phone := inp.phone, assigned_doctor := inp.assigned_doctor,
                admitted_at := inp.admitted_at, status := inp.status,
                surgeryId := inp.surgeryId }, by simp, rfl⟩

/-- Claim C6 witness: the unconfigured environment yields the fixed 503 on
the patient chat and the staff chat at concrete inputs. -/
theorem C6_graceful_degradation_witness :
    patientAIChat_post envNoKey (some demoPatientA) "Can I walk today" =
      (503, "AI service is not available. Please contact your healthcare provider.") ∧
    hospitalAIChat_post envNoKey demoDB (some hospA) "How is Ali doing" none =
      { status := 503, detail := "AI service is not available. Please try again later.",
        requires_clarification := false, potential_patients := [], aiCalled := false } :=
  ⟨(C6_graceful_degradation envNoKey rfl).1 demoPatientA "Can I walk today" (by decide),
   (C6_graceful_degradation envNoKey rfl).2.2.1 demoDB hospA "How is Ali doing" none (by decide)⟩

theorem filter_filter_not_nil {α} (pl q : α → Bool) (l : List α)
    (himp : ∀ a, q a = true → pl a = true) :
    ((l.filter (fun a => !(pl a))).filter q) = [] := by
  induction l with
  | nil => rfl
  | cons a as ih =>
      by_cases h : pl a = true
      · simp [List.filter_cons, h, ih]
      · have hq : q a = false := by
          cases hqa : q a
          · rfl
          · exact absurd (himp a hqa) h
        simp [List.filter_cons, h, hq, ih]

theorem filter_map_all {α β} (f : α → β) (q : β → Bool) (l : List α)
    (h : ∀ a, q (f a) = true) : (l.map f).filter q = l.map f := by
  induction l with
  | nil => rfl
  | cons a as ih => simp [List.filter_cons, h, ih]

theorem filter_map_none {α β} (f : α → β) (q : β → Bool) (l : List α)
    (h : ∀ a, q (f a) = false) : (l.map f).filter q = [] := by
  induction l with
  | nil => rfl
  | cons a as ih => simp [List.filter_cons, h, ih]

/-- Claim C4: after creating or updating a diet plan with a payload, the
displayed allowed foods, forbidden foods and meals equal — as unordered
collections — exactly the submitted lists (names with defaulted
descriptions, meal tuples with defaulted times); in particular no stale
child item of the plan survives an update with a smaller list. -/
theorem C4_diet_plan_roundtrip (st : DietState) (hid : Nat) (existing : Option Nat)
    (data : DietPlanPayload) (freshId : Nat) :
    List.Perm
      (display_foods (upsert_diet_plan st hid existing data freshId).1
        (upsert_diet_plan st hid existing data freshId).2 "allowed")
      (data.allowed_foods.map (fun it => (it.name, pyOrEmpty it.description))) ∧
    List.Perm
      (display_foods (upsert_diet_plan st hid existing data freshId).1
        (upsert_diet_plan st hid existing data freshId).2 "forbidden")
      (data.forbidden_foods.map (fun it => (it.name, pyOrEmpty it.description))) ∧
    List.Perm
      (display_meals (upsert_diet_plan st hid existing data freshId).1
        (upsert_diet_plan st hid existing data freshId).2)
      (data.meal_plan.map (fun m => (m.meal_type, m.description, m.time.getD ""))) := by
  refine ⟨?_, ?_, ?_⟩
  · have heq : display_foods (upsert_diet_plan st hid existing data freshId).1
        (upsert_diet_plan st hid existing data freshId).2 "allowed" =
        data.allowed_foods.map (fun it => (it.name, pyOrEmpty it.description)) := by
      unfold upsert_diet_plan display_foods
      dsimp only
      rw [List.filter_append, List.filter_append]
      rw [filter_filter_not_nil (fun (i : FoodItemRow) => i.planId == existing.getD freshId) _ _
        (by intro a ha; exact ((Bool.and_eq_true _ _).mp ha).1)]
      rw [filter_map_all _ _ _ (by intro it; simp [mkFoodItem])]
      rw [filter_map_none _ _ _ (by intro it; simp [mkFoodItem])]
      simp [mkFoodItem]
    exact heq ▸ List.Perm.refl _
  · have heq : display_foods (upsert_diet_plan st hid existing data freshId).1
        (upsert_diet_plan st hid existing data freshId).2 "forbidden" =
        data.forbidden_foods.map (fun it => (it.name, pyOrEmpty it.description)) := by
      unfold upsert_diet_plan display_foods
      dsimp only
      rw [List.filter_append, List.filter_append]
      rw [filter_filter_not_nil (fun (i : FoodItemRow) => i.planId == existing.getD freshId) _ _
        (by intro a ha; exact ((Bool.and_eq_true _ _).mp ha).1)]
      rw [filter_map_none _ _ _ (by intro it; simp [mkFoodItem])]
      rw [filter_map_all _ _ _ (by intro it; simp [mkFoodItem])]
      simp [mkFoodItem]
    exact heq ▸ List.Perm.refl _
  · have heq : display_meals (upsert_diet_plan st hid existing data freshId).1
        (upsert_diet_plan st hid existing data freshId).2 =
        data.meal_plan.map (fun m => (m.meal_type, m.description, m.time.getD "")) := by
      unfold upsert_diet_plan display_meals
      dsimp only
      rw [List.filter_append]
      rw [filter_filter_not_nil (fun (m : MealRow) => m.planId == existing.getD freshId) _ _
        (by intro a ha; exact ha)]
      rw [filter_map_all _ _ _ (by intro m; simp [mkMeal])]
      simp [mkMeal]
    exact heq ▸ List.Perm.refl _

theorem medLe_total (a b : Medication) : medLe a b = true ∨ medLe b a = true := by
  simp only [medLe, Bool.or_eq_true, Bool.and_eq_true, decide_eq_true_eq, beq_iff_eq]
  omega

theorem medLe_trans (a b c : Medication) :
    medLe a b = true → medLe b c = true → medLe a c = true := by
  simp only [medLe, Bool.or_eq_true, Bool.and_eq_true, decide_eq_true_eq, beq_iff_eq]
  omega

theorem medLe_imp (a b : Medication) (h : medLe a b = true) :
    a.start_date < b.start_date ∨ (a.start_date = b.start_date ∧ a.id ≤ b.id) := by
  simp only [medLe, Bool.or_eq_true, Bool.and_eq_true, decide_eq_true_eq, beq_iff_eq] at h
  omega

theorem enumFrom_map_medId (n : Nat) (l : List Medication) :
    ((List.enumFrom n l).map mkMedCard).map (fun c => c.medId) = l.map (fun m => m.id) := by
  induction l generalizing n with
  | nil => rfl
  | cons a as ih => simp [List.enumFrom, mkMedCard, ih]

theorem enumFrom_map_medKey (n : Nat) (l : List Medication) :
    ((List.enumFrom n l).map mkMedCard).map (fun c => (c.start_date, c.medId)) =
      l.map (fun m => (m.start_date, m.id)) := by
  induction l generalizing n with
  | nil => rfl
  | cons a as ih => simp [List.enumFrom, mkMedCard, ih]

/-- Claim C7: the patient medications view fails with 404 when the patient
has no assigned surgery; otherwise its cards are exactly the surgery's
medications whose date range includes today, ordered by start date then
id, the card at index i carries the due-time slot i mod 3 from the fixed
three-slot cycle, only index 0 is marked taken, and the timeline's second
entry (12 PM) always reports no medications. -/
theorem C7_medication_cards (db : DB) (p : Patient) (today : Nat) :
    (p.surgeryId = none →
      patientMedications_get db (some p) today =
        .error (404, "No surgery assigned to patient.")) ∧
    (∀ sid r, p.surgeryId = some sid →
      patientMedications_get db (some p) today = .ok r →
      List.Perm (r.medications.map (fun c => c.medId))
        ((db.medications.filter (fun m => m.surgeryId == sid &&
          m.start_date ≤ today && today ≤ m.end_date)).map (fun m => m.id)) ∧
      (r.medications.map (fun c => (c.start_date, c.medId))).Pairwise
        (fun x y => x.1 < y.1 ∨ (x.1 = y.1 ∧ x.2 ≤ y.2)) ∧
      (∀ i (hi : i < r.medications.length),
        (r.medications.get ⟨i, hi⟩).due_time = medSlots.getD (i % 3) "") ∧
      (∀ i (hi : i < r.medications.length),
        (r.medications.get ⟨i, hi⟩).status = if i = 0 then "taken" else "upcoming") ∧
      r.timeline.get? 1 = some { label := "12 PM", has_medications := false }) := by
  constructor
  · intro hs
    unfold patientMedications_get
    dsimp only
    rw [hs]
  · intro sid r hsid hok
    unfold patientMedications_get at hok
    dsimp only at hok
    rw [hsid] at hok
    dsimp only at hok
    simp only [Except.ok.injEq] at hok
    subst hok
    refine ⟨?_, ?_, ?_, ?_, rfl⟩
    · dsimp only
      rw [List.enum, enumFrom_map_medId]
      exact (sortByLe_perm medLe _).map _
    · dsimp only
      rw [List.enum, enumFrom_map_medKey]
      rw [List.pairwise_map]
      exact (sortByLe_pairwise medLe_total medLe_trans _).imp
        (fun hab => medLe_imp _ _ hab)
    · intro i hi
      simp only [List.get_eq_getElem, List.getElem_map, List.getElem_enum]
      rfl
    · intro i hi
      simp only [List.get_eq_getElem, List.getElem_map, List.getElem_enum]
      by_cases h0 : i = 0
      · simp [mkMedCard, h0]
      · simp [mkMedCard, h0]

/-- Claim C7 witness: four active medications for the demo surgery yield
the slot labels 8:00 AM, 2:00 PM, 8:00 PM, 8:00 AM with only the first
taken, and the 12 PM timeline entry is empty; a patient without a surgery
gets the 404. -/
theorem C7_medication_cards_witness :
    (∀ r, patientMedications_get medsDB (some patientWithSurgery) 5 = .ok r →
      (∀ i (hi : i < r.medications.length),
        (r.medications.get ⟨i, hi⟩).due_time = medSlots.getD (i % 3) "") ∧
      r.timeline.get? 1 = some { label := "12 PM", has_medications := false }) ∧
    patientMedications_get medsDB (some demoPatientA) 5 =
      .error (404, "No surgery assigned to patient.") :=
  ⟨fun r hok =>
    ⟨((C7_medication_cards medsDB patientWithSurgery 5).2 11 r (by rfl) hok).2.2.1,
     ((C7_medication_cards medsDB patientWithSurgery 5).2 11 r (by rfl) hok).2.2.2.2⟩,
   (C7_medication_cards medsDB demoPatientA 5).1 (by rfl)⟩

theorem name_word_loop_clarifies (db : DB) (h : Hospital) (question : String)
    (ws : List String)
    (hall : ∀ w ∈ ws, (name_candidates db h w).length ≠ 1 ∧
      (1 < (name_candidates db h w).length →
        ((name_candidates db h w).filter (surgery_mentioned db question)).length ≠ 1))
    (hex : ∃ w ∈ ws, 1 < (name_candidates db h w).length) :
    ∃ ans cands, name_word_loop db h question ws = .needClar ans cands ∧
      cands.length ≤ 5 := by
  induction ws with
  | nil => simp at hex
  | cons w ws ih =>
      obtain ⟨h1, h2⟩ := hall w (List.mem_cons_self w ws)
      by_cases hgt : 1 < (name_candidates db h w).length
      · have hb1 : ((name_candidates db h w).length == 1) = false := by
          simp only [beq_eq_false_iff_ne, ne_eq]
          exact h1
        have hb2 : (((name_candidates db h w).filter
            (surgery_mentioned db question)).length == 1) = false := by
          simp only [beq_eq_false_iff_ne, ne_eq]
          exact h2 hgt
        refine ⟨clarification_text w (((name_candidates db h w).take 5).map (candidate_line db)),
          ((name_candidates db h w).take 5).map (toCandidate db), ?_, ?_⟩
        · simp only [name_word_loop, hb1, Bool.false_eq_true, if_false, hgt, if_true, hb2]
        · simp only [List.length_map, List.length_take]
          exact Nat.min_le_left _ _
      · have hb1 : ((name_candidates db h w).length == 1) = false := by
          simp only [beq_eq_false_iff_ne, ne_eq]
          exact h1
        have hex2 : ∃ w2 ∈ ws, 1 < (name_candidates db h w2).length := by
          rcases hex with ⟨w2, hw2mem, hw2⟩
          rcases List.mem_cons.mp hw2mem with he | hm
          · exact absurd (he ▸ hw2) hgt
          · exact ⟨w2, hm, hw2⟩
        obtain ⟨ans, cands, heq, hle⟩ :=
          ih (fun w2 hm => hall w2 (List.mem_cons_of_mem _ hm)) hex2
        refine ⟨ans, cands, ?_, hle⟩
        simp only [name_word_loop, hb1, Bool.false_eq_true, if_false, hgt]
        exact heq

/-- Claim C5: a staff chat request with no explicit patient id, whose
question resolves no patient by phone, for which every extracted name
fragment matches zero or several patients, the surgery-name filter never
leaves exactly one survivor, and at least one fragment is ambiguous,
returns requires_clarification with at most five candidate patients and a
200 status, without invoking the AI provider. -/
theorem C5_staff_chat_ambiguity (env : AIEnv) (db : DB) (h : Hospital)
    (question : String) (hq : question.length ≤ 1000)
    (hkey : env.apiKey.isSome = true)
    (hphone : resolve_by_phone db h question = none)
    (hwords : ∀ w ∈ find_cap_words question,
      (name_candidates db h w).length ≠ 1 ∧
      (1 < (name_candidates db h w).length →
        ((name_candidates db h w).filter (surgery_mentioned db question)).length ≠ 1))
    (hex : ∃ w ∈ find_cap_words question, 1 < (name_candidates db h w).length) :
    (hospitalAIChat_post env db (some h) question none).requires_clarification = true ∧
    (hospitalAIChat_post env db (some h) question none).potential_patients.length ≤ 5 ∧
    (hospitalAIChat_post env db (some h) question none).aiCalled = false ∧
    (hospitalAIChat_post env db (some h) question none).status = 200 := by
  obtain ⟨ans, cands, heq, hle⟩ := name_word_loop_clarifies db h question _ hwords hex
  have hres : hospitalAIChat_post env db (some h) question none =
      { status := 200, detail := ans, requires_clarification := true,
        potential_patients := cands, aiCalled := false } := by
    unfold hospitalAIChat_post
    rw [if_neg (by omega)]
    simp only [show get_client env = true from hkey, Bool.not_true, Bool.false_eq_true,
      if_false, hphone, heq]
  rw [hres]
  exact ⟨rfl, hle, rfl, rfl⟩

/-- Claim C5 witness: two hospital-A patients both match the fragment
"Ali", no phone or surgery disambiguates, so the configured environment
returns a clarification without an AI call. -/
theorem C5_staff_chat_ambiguity_witness :
    (hospitalAIChat_post envWithKey demoDB (some hospA)
      "Ali ahvoli qanday" none).requires_clarification = true ∧
    (hospitalAIChat_post envWithKey demoDB (some hospA)
      "Ali ahvoli qanday" none).potential_patients.length ≤ 5 ∧
    (hospitalAIChat_post envWithKey demoDB (some hospA)
      "Ali ahvoli qanday" none).aiCalled = false ∧
    (hospitalAIChat_post envWithKey demoDB (some hospA)
      "Ali ahvoli qanday" none).status = 200 :=
  C5_staff_chat_ambiguity envWithKey demoDB hospA "Ali ahvoli qanday"
    (by decide) (by rfl) (by rfl) (by decide) (by decide)

end HospitalAI
